import Mathlib

set_option maxRecDepth 4096

/- Verification of the nodi-edge supervisor core: a shallow embedding of the
   application lifecycle engine (src/nodi_edge/app.py), the interface worker
   base (src/nodi_edge/intf_app.py), the configuration store accessors
   (src/nodi_edge/db.py and the conns accessors exercised by
   tests/test_db_conn.py), and the service supervisor
   (src/nodi_edge_apps/supervisor/core.py). -/

/-- Lifecycle states, from nodi_edge/states.py (AppState). -/
inductive AppState where
  | prepare
  | configure
  | connect
  | execute
  | recover
  | disconnect
  deriving DecidableEq, Repr

/-- The transition map installed once at engine construction by
App._setup_fsm via fsm.limit_transitions (app.py lines 242-247). -/
def limitTransitions : AppState → List AppState
  | .prepare => [.configure]
  | .configure => [.connect]
  | .connect => [.execute, .recover]
  | .execute => [.recover]
  | .recover => [.execute, .disconnect]
  | .disconnect => [.connect]

/-- The canonical allowed-transition relation, written from the words of the
specification (section 4.2), for comparison with limitTransitions. -/
def specTransitions : AppState → List AppState
  | .prepare => [.configure]
  | .configure => [.connect]
  | .connect => [.execute, .recover]
  | .execute => [.configure, .recover]
  | .recover => [.execute, .disconnect]
  | .disconnect => [.connect]

/-- Per-engine statistics relevant to the claims: the six per-stage done
flags and the running exception counter (app.py AppStatistics). -/
structure EngStats where
  prepareDone : Bool := false
  configureDone : Bool := false
  connectDone : Bool := false
  executeDone : Bool := false
  recoverDone : Bool := false
  disconnectDone : Bool := false
  exceptionCount : Nat := 0
  deriving DecidableEq, Repr

/-- Result of one subclass hook invocation: it returns normally or raises. -/
inductive Outcome where
  | ok
  | err
  deriving DecidableEq, Repr

/-- Result of one FSM handler step: the process exits, or the engine
continues in a state with updated statistics; the flag records whether
_log_fallback emitted output for this step. -/
inductive StepRes where
  | exit (code : Nat)
  | cont (s : AppState) (st : EngStats) (logged : Bool)
  deriving DecidableEq, Repr

/-- One FSM handler invocation of App (app.py _setup_fsm): prepare, configure,
connect, recover and disconnect are one pass each; execute is one iteration
of the inner while loop.  The Outcome argument resolves the on_* hook.
The logged flag mirrors _log_fallback (app.py lines 216-225), which emits
iff exception_count <= exception_limit at call time; in the connect and
execute handlers the counter is incremented before _log_fallback runs, in
the recover and disconnect handlers it is not incremented at all.  On the
first successful execute iteration (execute done flag still false) the
handler calls _reset_done_flags_for_success (app.py lines 231-234), clearing
the recover and disconnect done flags and zeroing the exception counter. -/
def engineStep (limit : Nat) : AppState → EngStats → Outcome → StepRes
  | .prepare, st, .ok =>
      .cont .configure { st with prepareDone := true } false
  | .prepare, _, .err => .exit 1
  | .configure, st, .ok =>
      .cont .connect { st with configureDone := true } false
  | .configure, _, .err => .exit 1
  | .connect, st, .ok =>
      .cont .execute { st with connectDone := true } false
  | .connect, st, .err =>
      .cont .recover { st with exceptionCount := st.exceptionCount + 1 }
        (decide (st.exceptionCount + 1 ≤ limit))
  | .execute, st, .ok =>
      if st.executeDone then .cont .execute st false
      else
        .cont .execute
          { st with executeDone := true, recoverDone := false,
                    disconnectDone := false, exceptionCount := 0 } false
  | .execute, st, .err =>
      .cont .recover { st with exceptionCount := st.exceptionCount + 1 }
        (decide (st.exceptionCount + 1 ≤ limit))
  | .recover, st, .ok =>
      .cont .execute { st with recoverDone := true } false
  | .recover, st, .err =>
      .cont .disconnect st (decide (st.exceptionCount ≤ limit))
  | .disconnect, st, .ok =>
      .cont .connect
        { st with disconnectDone := true, connectDone := false,
                  executeDone := false } false
  | .disconnect, st, .err =>
      .cont .connect { st with connectDone := false, executeDone := false }
        (decide (st.exceptionCount ≤ limit))

/-- Final status of a finite run of the FSM driver thread. -/
inductive RunRes where
  | running (s : AppState) (st : EngStats)
  | exited (code : Nat)
  deriving DecidableEq, Repr

/-- Run the engine over a finite list of hook outcomes. -/
def engineRun (limit : Nat) : AppState → EngStats → List Outcome → RunRes
  | s, st, [] => .running s st
  | s, st, o :: os =>
    match engineStep limit s st o with
    | .exit c => .exited c
    | .cont s2 st2 _ => engineRun limit s2 st2 os

/-- C1: the transition map App._setup_fsm installs differs from the canonical
relation exactly at EXECUTE: the code allows only RECOVER there, while the
specification (and tests/test_app_reconfigure.py, test_all_transitions_present)
require CONFIGURE as well; the other five rows agree. -/
theorem c1_execute_transition_row :
    limitTransitions AppState.execute = [AppState.recover] ∧
    specTransitions AppState.execute = [AppState.configure, AppState.recover] ∧
    (limitTransitions AppState.execute).contains AppState.configure = false ∧
    limitTransitions AppState.prepare = specTransitions AppState.prepare ∧
    limitTransitions AppState.configure = specTransitions AppState.configure ∧
    limitTransitions AppState.connect = specTransitions AppState.connect ∧
    limitTransitions AppState.recover = specTransitions AppState.recover ∧
    limitTransitions AppState.disconnect = specTransitions AppState.disconnect := by
  decide

/-- C2: an EXECUTE iteration can only continue in EXECUTE or hand control to
RECOVER, never to CONFIGURE: App defines no request_reconfigure and no
reconfigure event (the call at intf_app.py line 117 has no target), the
execute handler polls nothing before on_execute, and the installed
transition map forbids the EXECUTE to CONFIGURE edge. -/
theorem c2_execute_never_configure :
    ∀ (limit : Nat) (st : EngStats) (o : Outcome), ∃ (st2 : EngStats) (l : Bool),
      engineStep limit AppState.execute st o =
        StepRes.cont AppState.execute st2 l ∨
      engineStep limit AppState.execute st o =
        StepRes.cont AppState.recover st2 l := by
  intro limit st o
  cases o with
  | ok =>
    by_cases h : st.executeDone
    · refine ⟨st, false, Or.inl ?_⟩
      simp [engineStep, h]
    · refine ⟨({ st with executeDone := true, recoverDone := false, disconnectDone := false, exceptionCount := 0 }), false, Or.inl ?_⟩
      simp [engineStep, h]
  | err => exact ⟨_, _, Or.inr rfl⟩

/-- Statistics reached by the concrete run used against C3: connect succeeds,
the first execute iteration succeeds (resetting the counter), the second
raises, recovery succeeds. -/
def stC3 : EngStats :=
  { prepareDone := true, configureDone := true, connectDone := true,
    executeDone := true, recoverDone := true, disconnectDone := false,
    exceptionCount := 1 }

/-- C3 counterexample: in the reachable state stC3 the next EXECUTE iteration
completes without raising, yet exception_count stays 1 afterwards: the reset
runs only when the execute done flag is still false (first success of the
cycle), not on every successful iteration, and the RECOVER to EXECUTE path
does not clear that flag. -/
theorem c3_counterexample :
    engineRun 1 AppState.prepare {} [.ok, .ok, .ok, .ok, .err, .ok] =
      RunRes.running AppState.execute stC3 ∧
    engineStep 1 AppState.execute stC3 .ok =
      StepRes.cont AppState.execute stC3 false ∧
    stC3.exceptionCount = 1 := by
  decide

/-- C3 (amended): the exception counter is zeroed exactly by the FIRST
successful EXECUTE iteration of a cycle (execute done flag still false),
which also clears the recover and disconnect done flags; and no engine step
ever decreases the counter except that reset, so within a stretch containing
no first-success EXECUTE iteration the counter is monotonically
non-decreasing. -/
theorem c3_exception_count_reset :
    (∀ (limit : Nat) (st : EngStats),
       st.executeDone = false →
       engineStep limit AppState.execute st .ok =
         StepRes.cont AppState.execute
           { st with executeDone := true, recoverDone := false,
                     disconnectDone := false, exceptionCount := 0 } false) ∧
    (∀ (limit : Nat) (s : AppState) (st : EngStats) (o : Outcome)
       (s2 : AppState) (st2 : EngStats) (l : Bool),
       engineStep limit s st o = StepRes.cont s2 st2 l →
       st.exceptionCount ≤ st2.exceptionCount ∨
       (s = AppState.execute ∧ o = .ok ∧ st.executeDone = false ∧
        st2.exceptionCount = 0)) := by
  constructor
  · intro limit st hdone
    simp [engineStep, hdone]
  · intro limit s st o s2 st2 l hstep
    cases s <;> cases o <;> simp only [engineStep] at hstep
    case prepare.err => exact StepRes.noConfusion hstep
    case configure.err => exact StepRes.noConfusion hstep
    case execute.ok =>
      by_cases hdone : st.executeDone
      · rw [if_pos hdone] at hstep
        obtain ⟨h1, h2, h3⟩ := StepRes.cont.inj hstep
        subst h2
        exact Or.inl le_rfl
      · rw [if_neg hdone] at hstep
        obtain ⟨h1, h2, h3⟩ := StepRes.cont.inj hstep
        subst h2
        exact Or.inr ⟨rfl, rfl, by simpa using hdone, rfl⟩
    all_goals obtain ⟨h1, h2, h3⟩ := StepRes.cont.inj hstep
    all_goals subst h2
    all_goals refine Or.inl ?_
    all_goals try dsimp only
    all_goals omega

/-- Witness for c3_exception_count_reset at concrete inputs: the first
successful execute iteration from fresh statistics resets the counter, and a
connect failure step does not decrease it. -/
theorem c3_exception_count_reset_witness :
    (engineStep 1 AppState.execute {} .ok =
       StepRes.cont AppState.execute { executeDone := true } false) ∧
    (({} : EngStats).exceptionCount ≤
       ({ exceptionCount := 1 } : EngStats).exceptionCount ∨
     (AppState.connect = AppState.execute ∧ Outcome.err = Outcome.ok ∧
      ({} : EngStats).executeDone = false ∧
      ({ exceptionCount := 1 } : EngStats).exceptionCount = 0)) :=
  ⟨c3_exception_count_reset.1 1 {} rfl,
   c3_exception_count_reset.2 1 AppState.connect {} Outcome.err
     AppState.recover { exceptionCount := 1 } true rfl⟩

/-- Statistics reached by the concrete run used against C9: the single prior
exception happened in CONNECT, then recovery succeeded. -/
def stC9 : EngStats :=
  { prepareDone := true, configureDone := true, connectDone := false,
    executeDone := false, recoverDone := true, disconnectDone := false,
    exceptionCount := 1 }

/-- C9 counterexample: with the default exception_limit of 1, after a
reachable run whose one prior exception was raised in CONNECT, the FIRST
exception ever raised in stage EXECUTE is already suppressed (logged =
false): the budget is one engine-global counter, not a per-stage one. -/
theorem c9_counterexample :
    engineRun 1 AppState.prepare {} [.ok, .ok, .err, .ok] =
      RunRes.running AppState.execute stC9 ∧
    engineStep 1 AppState.execute stC9 .err =
      StepRes.cont AppState.recover { stC9 with exceptionCount := 2 } false := by
  decide

/-- C9 (amended): the log budget is engine-global, not per stage.  Every step
that emits a fallback log does so with the resulting exception_count within
the limit, and for an exception raised in CONNECT or EXECUTE the counter is
incremented and the warning plus traceback are emitted iff the incremented
global count is at most exception_limit, independent of the stage; the count
is cleared again only by the first successful EXECUTE iteration. -/
theorem c9_log_budget :
    ∀ (limit : Nat) (s : AppState) (st : EngStats) (o : Outcome)
      (s2 : AppState) (st2 : EngStats) (l : Bool),
      engineStep limit s st o = StepRes.cont s2 st2 l →
      (l = true → st2.exceptionCount ≤ limit) ∧
      (o = .err → (s = AppState.connect ∨ s = AppState.execute) →
        (st2.exceptionCount = st.exceptionCount + 1 ∧
         (l = true ↔ st.exceptionCount + 1 ≤ limit))) := by
  intro limit s st o s2 st2 l hstep
  cases s <;> cases o <;> simp only [engineStep] at hstep
  case prepare.err => exact StepRes.noConfusion hstep
  case configure.err => exact StepRes.noConfusion hstep
  case execute.ok =>
    by_cases hdone : st.executeDone
    · rw [if_pos hdone] at hstep
      obtain ⟨h1, h2, h3⟩ := StepRes.cont.inj hstep
      subst h2
      subst h3
      exact ⟨by simp, by simp⟩
    · rw [if_neg hdone] at hstep
      obtain ⟨h1, h2, h3⟩ := StepRes.cont.inj hstep
      subst h2
      subst h3
      exact ⟨by simp, by simp⟩
  case connect.err =>
    obtain ⟨h1, h2, h3⟩ := StepRes.cont.inj hstep
    subst h2
    subst h3
    refine ⟨fun hl => ?_, fun _ _ => ⟨rfl, by simp⟩⟩
    simpa using of_decide_eq_true hl
  case execute.err =>
    obtain ⟨h1, h2, h3⟩ := StepRes.cont.inj hstep
    subst h2
    subst h3
    refine ⟨fun hl => ?_, fun _ _ => ⟨rfl, by simp⟩⟩
    simpa using of_decide_eq_true hl
  case recover.err =>
    obtain ⟨h1, h2, h3⟩ := StepRes.cont.inj hstep
    subst h2
    subst h3
    refine ⟨fun hl => ?_, by simp⟩
    simpa using of_decide_eq_true hl
  case disconnect.err =>
    obtain ⟨h1, h2, h3⟩ := StepRes.cont.inj hstep
    subst h2
    subst h3
    refine ⟨fun hl => ?_, by simp⟩
    simpa using of_decide_eq_true hl
  all_goals obtain ⟨h1, h2, h3⟩ := StepRes.cont.inj hstep
  all_goals subst h2
  all_goals subst h3
  all_goals exact ⟨by simp, by simp⟩

/-- Witness for c9_log_budget: a first connect exception at limit 1 is
counted and logged. -/
theorem c9_log_budget_witness :
    ((true = true → ({ exceptionCount := 1 } : EngStats).exceptionCount ≤ 1) ∧
     (Outcome.err = Outcome.err →
       (AppState.connect = AppState.connect ∨ AppState.connect = AppState.execute) →
       (({ exceptionCount := 1 } : EngStats).exceptionCount =
          ({} : EngStats).exceptionCount + 1 ∧
        (true = true ↔ ({} : EngStats).exceptionCount + 1 ≤ 1)))) :=
  c9_log_budget 1 AppState.connect {} Outcome.err AppState.recover
    { exceptionCount := 1 } true rfl

/-- Connection row of the conns table (schema in tests/conftest.py; spec
section 3).  The REAL-valued timeout column is modelled as an integer scalar;
rows only ever compare it for equality. -/
structure ConnRow where
  conn : String
  use : Bool
  protocol : String
  host : String
  port : Int
  timeout : Int
  retry : Int
  properties : String
  updated_at : Nat
  deriving DecidableEq, Repr

/-- Modelled from the spec: EdgeDB.select_conns is missing from src (only
tests/test_db_conn.py and callers reference it); the spec contracts
"enumerate connections".  Row order is irrelevant to the claims. -/
def select_conns (db : List ConnRow) : List ConnRow := db

/-- Modelled from the spec: EdgeDB.select_conns_enabled is missing from src
(only tests/test_db_conn.py and SupervisorApp._sync_conns_initial reference
it); the spec contracts "enumerate enabled-only connections", the rows whose
use flag is set. -/
def select_conns_enabled (db : List ConnRow) : List ConnRow :=
  db.filter (fun r => r.use)

/-- Modelled from the spec: EdgeDB.select_conn is missing from src (only
tests and callers reference it); the spec contracts "fetch one by id" - the
row keyed by the given connection id, or nothing. -/
def select_conn (db : List ConnRow) (connId : String) : Option ConnRow :=
  db.find? (fun r => r.conn == connId)

/-- Modelled from the spec: the maximum updated-at across all connection
rows, 0 when the table is empty (the src intf-table variant is
EdgeDB.select_max_intf_updated_at, db.py 161-164, COALESCE(MAX(updated_at), 0)). -/
def select_max_conn_updated_at (db : List ConnRow) : Nat :=
  db.foldl (fun acc r => max acc r.updated_at) 0

/-- InterfaceApp._is_conn_info_changed (intf_app.py 85-92): true iff one of
the _CONN_INFO_KEYS host, port, timeout, retry differs between the previous
and the reloaded connection dict. -/
def is_conn_info_changed (prev curr : ConnRow) : Bool :=
  prev.host != curr.host || prev.port != curr.port ||
    prev.timeout != curr.timeout || prev.retry != curr.retry

/-- What InterfaceApp._on_config_reload_tag decides to do. -/
inductive ReloadAction where
  | exitZero
  | reconfigure
  deriving DecidableEq, Repr

/-- InterfaceApp._on_config_reload_tag (intf_app.py 99-117): reload the
connection row from the store (a missing row raises, modelled as none); a
connection-level change exits the process with status 0 (systemd restarts it
under Restart=always); anything else requests a hot reconfigure and the
worker stays in the same OS process. -/
def on_config_reload (prev : ConnRow) (db : List ConnRow) (connId : String) :
    Option ReloadAction :=
  match select_conn db connId with
  | none => none
  | some curr =>
    if is_conn_info_changed prev curr then some ReloadAction.exitZero
    else some ReloadAction.reconfigure

/-- The connection-level tuple (host, port, timeout, retry) of spec
section 4.6. -/
def connTuple (r : ConnRow) : String × Int × Int × Int :=
  (r.host, r.port, r.timeout, r.retry)

/-- is_conn_info_changed returns false exactly when the connection-level
tuples agree. -/
theorem is_conn_info_changed_eq_false (prev curr : ConnRow) :
    is_conn_info_changed prev curr = false ↔ connTuple prev = connTuple curr := by
  simp [is_conn_info_changed, connTuple, Prod.ext_iff, and_assoc]

/-- is_conn_info_changed is exactly inequality of the connection-level
tuples. -/
theorem is_conn_info_changed_iff (prev curr : ConnRow) :
    is_conn_info_changed prev curr = true ↔ connTuple prev ≠ connTuple curr := by
  constructor
  · intro h hEq
    have hf : is_conn_info_changed prev curr = false :=
      (is_conn_info_changed_eq_false prev curr).mpr hEq
    simp [hf] at h
  · intro hne
    cases hc : is_conn_info_changed prev curr
    · exact absurd ((is_conn_info_changed_eq_false prev curr).mp hc) hne
    · rfl

/-- C7: a worker receiving config_reload exits with status 0 iff the
connection-level tuple (host, port, timeout, retry) changed between the
previous and the reloaded configuration; any change leaving the tuple
unchanged (blocks, tag mappings, protocol properties) instead requests a hot
reconfigure and keeps the process alive. -/
theorem c7_reload_classification :
    ∀ (prev curr : ConnRow) (db : List ConnRow) (connId : String),
      select_conn db connId = some curr →
      (on_config_reload prev db connId = some ReloadAction.exitZero ↔
        connTuple prev ≠ connTuple curr) ∧
      (on_config_reload prev db connId = some ReloadAction.reconfigure ↔
        connTuple prev = connTuple curr) := by
  intro prev curr db connId hsel
  unfold on_config_reload
  rw [hsel]
  dsimp only
  by_cases hch : is_conn_info_changed prev curr = true
  · rw [if_pos hch]
    have := (is_conn_info_changed_iff prev curr).mp hch
    simp_all
  · rw [if_neg hch]
    have : connTuple prev = connTuple curr := by
      by_contra hne
      exact hch ((is_conn_info_changed_iff prev curr).mpr hne)
    simp_all

/-- A concrete connection row for witnesses: enabled, protocol mtc. -/
def crow1 : ConnRow :=
  { conn := "mtc-01", use := true, protocol := "mtc", host := "10.0.0.1",
    port := 502, timeout := 3, retry := 3, properties := "", updated_at := 5 }

/-- crow1 with only the port changed (a connection-level change). -/
def crow2 : ConnRow := { crow1 with port := 503, updated_at := 6 }

/-- crow1 with only the properties blob changed (a hot-reload change). -/
def crow3 : ConnRow := { crow1 with properties := "p", updated_at := 7 }

/-- Witness for c7_reload_classification: a port change is classified as
exit-with-0 and a properties-only change as hot reconfigure. -/
theorem c7_reload_classification_witness :
    (on_config_reload crow1 [crow2] "mtc-01" = some ReloadAction.exitZero ↔
      connTuple crow1 ≠ connTuple crow2) ∧
    (on_config_reload crow1 [crow2] "mtc-01" = some ReloadAction.reconfigure ↔
      connTuple crow1 = connTuple crow2) :=
  c7_reload_classification crow1 crow2 [crow2] "mtc-01" (by decide)

/-- App-registry row (db.py app_registry table; schema in tests/conftest.py).
The supervisor writes the conn_id column; the legacy interface_id column is
unused by the claims and omitted. -/
structure AppRow where
  app_id : String
  category : String
  module : String
  enabled : Bool
  config : String
  conn_id : Option String
  license_token : Option String
  license_expires_at : Option Nat
  updated_at : Nat
  deriving DecidableEq, Repr

/-- EdgeDB.select_app (db.py 87-90): the row with the given app_id, if any. -/
def select_app (db : List AppRow) (appId : String) : Option AppRow :=
  db.find? (fun r => r.app_id == appId)

/-- EdgeDB.select_app_registry with a category filter (db.py 78-85): the rows
of that category, ordered by app_id. -/
def select_app_registry_cat (db : List AppRow) (category : String) :
    List AppRow :=
  List.insertionSort (fun a b => a.app_id ≤ b.app_id)
    (db.filter (fun r => r.category == category))

/-- EdgeDB.upsert_app (db.py 92-116): insert the row, or on app_id conflict
replace the existing row (SQLite upsert). -/
def upsert_app (db : List AppRow) (row : AppRow) : List AppRow :=
  if db.any (fun r => r.app_id == row.app_id) then
    db.map (fun r => if r.app_id == row.app_id then row else r)
  else db ++ [row]

/-- EdgeDB.update_app_license (db.py 125-137): set token, expiry, enabled and
updated_at on the row matching app_id (a no-op when no row matches). -/
def update_app_license (db : List AppRow) (appId : String)
    (tok : Option String) (e : Option Nat) (enabled : Bool) (now : Nat) :
    List AppRow :=
  db.map (fun r =>
    if r.app_id == appId then
      { r with license_token := tok, license_expires_at := e,
               enabled := enabled, updated_at := now }
    else r)

/-- EdgeDB.delete_app (db.py 139-142). -/
def delete_app (db : List AppRow) (appId : String) : List AppRow :=
  db.filter (fun r => r.app_id != appId)

/-- In-memory service record (core.py ServiceState dataclass).  Monotonic
clock readings are modelled as integers. -/
structure ServiceState where
  app_id : String
  category : String
  module : String
  enabled : Bool
  conn_id : Option String := none
  active : Bool := false
  restart_count : Nat := 0
  last_restart_ts : Int := 0
  deriving DecidableEq, Repr

/-- Entitlement claims (spec section 3; license.py validate_token requires
exp, app_id and serial_number). -/
structure LicClaims where
  app_id : String
  serial_number : String
  exp : Nat
  deriving DecidableEq, Repr

/-- External side effects issued by the supervisor: service-manager verbs,
log lines, bus events. -/
inductive SvAction where
  | start (svc : String)
  | stop (svc : String)
  | daemonReload
  | logError (appId : String)
  | logWarn (appId : String)
  | publishEvent (ev : String) (data : String)
  deriving DecidableEq, Repr

/-- Supervisor runtime state: the app_registry table, the in-memory service
map (service dict, unique keys), the unit-file directory, the on-disk token
cache, whether the license manager was constructed in PREPARE, and the trace
of external actions in order of execution. -/
structure SupState where
  db : List AppRow
  services : List (String × ServiceState) := []
  unitFiles : List String := []
  tokenCache : List (String × String) := []
  hasLicenseMgr : Bool := true
  acts : List SvAction := []
  deriving DecidableEq, Repr

/-- core.py _get_service_name (221-224). -/
def service_name (appId category : String) : String :=
  if category == "interface" then "ne-interface-" ++ appId
  else "ne-addon-" ++ appId

/-- core.py _get_service_path (226-227): file name under /etc/systemd/system. -/
def unit_file (appId category : String) : String :=
  service_name appId category ++ ".service"

/-- Python dict read services.get(app_id). -/
def svcLookup (svcs : List (String × ServiceState)) (appId : String) :
    Option ServiceState :=
  (svcs.find? (fun p => p.1 == appId)).map Prod.snd

/-- Python dict write services[app_id] = s. -/
def svcSet (svcs : List (String × ServiceState)) (appId : String)
    (s : ServiceState) : List (String × ServiceState) :=
  (appId, s) :: svcs.filter (fun p => p.1 != appId)

/-- Python dict services.pop(app_id, None). -/
def svcDrop (svcs : List (String × ServiceState)) (appId : String) :
    List (String × ServiceState) :=
  svcs.filter (fun p => p.1 != appId)

/-- core.py _create_service_unit (259-278): write (overwrite) the unit file;
the filesystem is modelled without write failures. -/
def create_service_unit (st : SupState) (s : ServiceState) : SupState :=
  { st with unitFiles :=
      unit_file s.app_id s.category ::
        st.unitFiles.filter (fun g => g != unit_file s.app_id s.category) }

/-- core.py _remove_service_unit (280-289): delete the unit file if present. -/
def remove_service_unit (st : SupState) (appId category : String) : SupState :=
  { st with unitFiles :=
      st.unitFiles.filter (fun g => g != unit_file appId category) }

/-- core.py _daemon_reload (247-248). -/
def daemon_reload (st : SupState) : SupState :=
  { st with acts := st.acts ++ [SvAction.daemonReload] }

/-- core.py _start_service (291-296): issue systemctl start (the success of
the command is resolved by the caller's oracle). -/
def start_service (st : SupState) (appId category : String) : SupState :=
  { st with acts := st.acts ++ [SvAction.start (service_name appId category)] }

/-- core.py _stop_service (298-303). -/
def stop_service (st : SupState) (appId category : String) : SupState :=
  { st with acts := st.acts ++ [SvAction.stop (service_name appId category)] }

/-- core.py _publish_event (664-668). -/
def publish_event (st : SupState) (ev data : String) : SupState :=
  { st with acts := st.acts ++ [SvAction.publishEvent ev data] }

/-- core.py _deactivate_service (549-554): if the mapped service is active,
stop it and clear its active flag. -/
def deactivate_service (st : SupState) (appId category : String) : SupState :=
  match svcLookup st.services appId with
  | some s =>
    if s.active then
      let st2 := stop_service st appId category
      { st2 with services := svcSet st2.services appId { s with active := false } }
    else st
  | none => st

/-- PROTOCOL_MODULES (db.py 21-37). -/
def PROTOCOL_MODULES : List (String × String) :=
  [("mtc", "nodi_edge_intf.modbus_tcp_client"),
   ("mts", "nodi_edge_intf.modbus_tcp_server"),
   ("mvc", "nodi_edge_intf.modbus_rtu_tcp_client"),
   ("mvs", "nodi_edge_intf.modbus_rtu_tcp_server"),
   ("mrc", "nodi_edge_intf.modbus_rtu_client"),
   ("mrs", "nodi_edge_intf.modbus_rtu_server"),
   ("ouc", "nodi_edge_intf.opcua_client"),
   ("ous", "nodi_edge_intf.opcua_server"),
   ("mqc", "nodi_edge_intf.mqtt_client"),
   ("mqs", "nodi_edge_intf.mqtt_broker"),
   ("kfc", "nodi_edge_intf.kafka_client"),
   ("kfs", "nodi_edge_intf.kafka_server"),
   ("rdc", "nodi_edge_intf.rdb_client"),
   ("rac", "nodi_edge_intf.rest_client"),
   ("ras", "nodi_edge_intf.rest_server")]

/-- ADDON_MODULES (db.py 40-43). -/
def ADDON_MODULES : List (String × String) :=
  [("vplc", "nodi_edge_addon.virtual_plc"),
   ("snf", "nodi_edge_addon.store_forward")]

/-- One loop body of SupervisorApp._sync_conns_initial (core.py 368-386):
for an enabled connection row, look up the module for its protocol (unknown:
warn and skip), upsert the interface registry row, put the service record in
the map, and write the unit file. -/
def sync_conn_one (now : Nat) (st : SupState) (r : ConnRow) : SupState :=
  match PROTOCOL_MODULES.lookup r.protocol with
  | none => { st with acts := st.acts ++ [SvAction.logWarn r.conn] }
  | some m =>
    let row : AppRow :=
      { app_id := r.conn, category := "interface", module := m,
        enabled := true, config := "\x7b\x7d", conn_id := some r.conn,
        license_token := none, license_expires_at := none, updated_at := now }
    let st2 := { st with db := upsert_app st.db row }
    let s : ServiceState :=
      { app_id := r.conn, category := "interface", module := m,
        enabled := true, conn_id := some r.conn }
    let st3 := { st2 with services := svcSet st2.services r.conn s }
    create_service_unit st3 s

/-- SupervisorApp._sync_conns_initial (core.py 364-389): iterate exactly the
enabled-only connection rows from the store, then issue one daemon-reload if
any unit file was written. -/
def sync_conns_initial (st : SupState) (conns : List ConnRow) (now : Nat) :
    SupState :=
  let rows := select_conns_enabled conns
  let st2 := rows.foldl (sync_conn_one now) st
  if rows.any (fun r => (PROTOCOL_MODULES.lookup r.protocol).isSome) then
    daemon_reload st2
  else st2

/-- Looking a key up after a dict write: the written key reads back the
written record, other keys are unaffected. -/
theorem svcLookup_svcSet (svcs : List (String × ServiceState))
    (k appId : String) (s : ServiceState) :
    svcLookup (svcSet svcs k s) appId =
      if appId = k then some s else svcLookup svcs appId := by
  by_cases h : appId = k
  · subst h
    simp [svcLookup, svcSet]
  · rw [if_neg h]
    unfold svcLookup svcSet
    rw [List.find?_cons_of_neg _ (by simpa using fun hh => h hh.symm)]
    congr 1
    induction svcs with
    | nil => rfl
    | cons a t ih =>
      by_cases hak : a.1 = k
      · rw [List.filter_cons_of_neg (by simpa using hak),
          List.find?_cons_of_neg _ (by simp [hak]; exact fun hh => h (hak ▸ hh.symm))]
        exact ih
      · rw [List.filter_cons_of_pos (by simpa using hak)]
        by_cases hai : a.1 = appId
        · rw [List.find?_cons_of_pos _ (by simpa using hai),
            List.find?_cons_of_pos _ (by simpa using hai)]
        · rw [List.find?_cons_of_neg _ (by simpa using hai),
            List.find?_cons_of_neg _ (by simpa using hai)]
          exact ih

/-- Looking up a service after one initial-sync loop body: the id becomes
present exactly if it was present before or the processed row is this
connection with a known protocol. -/
theorem svcLookup_sync_conn_one (now : Nat) (st : SupState) (r : ConnRow)
    (appId : String) :
    (svcLookup (sync_conn_one now st r).services appId).isSome = true ↔
      ((svcLookup st.services appId).isSome = true ∨
       (r.conn = appId ∧ (PROTOCOL_MODULES.lookup r.protocol).isSome = true)) := by
  unfold sync_conn_one
  cases hm : PROTOCOL_MODULES.lookup r.protocol with
  | none => simp [svcLookup]
  | some m =>
    dsimp only [create_service_unit]
    rw [svcLookup_svcSet]
    by_cases happ : appId = r.conn
    · simp [happ, hm]
    · rw [if_neg happ]
      have hne : r.conn ≠ appId := fun h => happ h.symm
      simp [hm, hne]

/-- Looking up a service after folding initial sync over a row list. -/
theorem svcLookup_sync_fold (now : Nat) (rows : List ConnRow) :
    ∀ (st : SupState) (appId : String),
      (svcLookup ((rows.foldl (sync_conn_one now) st)).services appId).isSome = true ↔
      ((svcLookup st.services appId).isSome = true ∨
        ∃ r, r ∈ rows ∧ r.conn = appId ∧
          (PROTOCOL_MODULES.lookup r.protocol).isSome = true) := by
  induction rows with
  | nil =>
    intro st appId
    simp
  | cons r t ih =>
    intro st appId
    rw [List.foldl_cons, ih, svcLookup_sync_conn_one]
    constructor
    · rintro ((h | h) | ⟨r2, hr2, h1, h2⟩)
      · exact Or.inl h
      · exact Or.inr ⟨r, List.mem_cons_self r t, h.1, h.2⟩
      · exact Or.inr ⟨r2, List.mem_cons_of_mem r hr2, h1, h2⟩
    · rintro (h | ⟨r2, hr2, h1, h2⟩)
      · exact Or.inl (Or.inl h)
      · rcases List.mem_cons.mp hr2 with h3 | h3
        · subst h3
          exact Or.inl (Or.inr ⟨h1, h2⟩)
        · exact Or.inr ⟨r2, h3, h1, h2⟩

/-- The fold seed is a lower bound of the running maximum. -/
theorem foldl_max_le_init (db : List ConnRow) :
    ∀ acc : Nat, acc ≤ db.foldl (fun a x => max a x.updated_at) acc := by
  induction db with
  | nil => intro acc; exact le_rfl
  | cons r t ih => intro acc; exact le_trans (le_max_left _ _) (ih _)

/-- Every member is bounded by the running maximum. -/
theorem mem_le_foldl_max (db : List ConnRow) :
    ∀ (acc : Nat) (r : ConnRow), r ∈ db →
      r.updated_at ≤ db.foldl (fun a x => max a x.updated_at) acc := by
  induction db with
  | nil => intro acc r h; cases h
  | cons x t ih =>
    intro acc r h
    rcases List.mem_cons.mp h with h | h
    · subst h
      exact le_trans (le_max_right _ _) (foldl_max_le_init t _)
    · exact ih _ r h

/-- C8: the configuration store's connection operations behave as contracted:
enumeration returns all rows; the enabled-only enumeration returns exactly
the rows with the use flag set; fetch-by-id returns a row keyed by the id
when one exists and only rows that are in the table; the maximum updated-at
bounds every row; and the supervisor's initial connection sync consumes the
enabled-only enumeration: after it, an id is mapped iff it was mapped before
or an enabled row with that id and a known protocol module exists. -/
theorem c8_conn_store_contract :
    (∀ (db : List ConnRow) (r : ConnRow), r ∈ select_conns db ↔ r ∈ db) ∧
    (∀ (db : List ConnRow) (r : ConnRow),
       r ∈ select_conns_enabled db ↔ r ∈ db ∧ r.use = true) ∧
    (∀ (db : List ConnRow) (connId : String) (r : ConnRow),
       select_conn db connId = some r → r ∈ db ∧ r.conn = connId) ∧
    (∀ (db : List ConnRow) (connId : String) (r : ConnRow),
       r ∈ db → r.conn = connId →
       ∃ r2, select_conn db connId = some r2 ∧ r2.conn = connId) ∧
    (∀ (db : List ConnRow) (r : ConnRow),
       r ∈ db → r.updated_at ≤ select_max_conn_updated_at db) ∧
    (∀ (st : SupState) (conns : List ConnRow) (now : Nat) (appId : String),
       (svcLookup (sync_conns_initial st conns now).services appId).isSome = true ↔
       ((svcLookup st.services appId).isSome = true ∨
        ∃ r, r ∈ select_conns_enabled conns ∧ r.conn = appId ∧
          (PROTOCOL_MODULES.lookup r.protocol).isSome = true)) := by
  refine ⟨?_, ?_, ?_, ?_, ?_, ?_⟩
  · intro db r
    simp [select_conns]
  · intro db r
    simp [select_conns_enabled, List.mem_filter]
  · intro db connId r hfind
    refine ⟨List.mem_of_find?_eq_some hfind, ?_⟩
    have := List.find?_some hfind
    simpa using this
  · intro db connId r hmem hconn
    have hsome : (db.find? (fun r2 => r2.conn == connId)).isSome := by
      rw [List.find?_isSome]
      exact ⟨r, hmem, by simp [hconn]⟩
    obtain ⟨r2, hr2⟩ := Option.isSome_iff_exists.mp hsome
    refine ⟨r2, hr2, ?_⟩
    have := List.find?_some hr2
    simpa using this
  · intro db r hmem
    exact mem_le_foldl_max db 0 r hmem
  · intro st conns now appId
    have hs : (sync_conns_initial st conns now).services =
        ((select_conns_enabled conns).foldl (sync_conn_one now) st).services := by
      unfold sync_conns_initial
      dsimp only
      split <;> rfl
    rw [hs, svcLookup_sync_fold]

/-- An empty supervisor state for witnesses. -/
def supEmpty : SupState := { db := [] }

/-- Witness for c8_conn_store_contract at a one-row table holding crow1. -/
theorem c8_conn_store_contract_witness :
    (crow1 ∈ select_conns [crow1] ↔ crow1 ∈ [crow1]) ∧
    (crow1 ∈ [crow1] ∧ crow1.conn = "mtc-01") ∧
    (∃ r2, select_conn [crow1] "mtc-01" = some r2 ∧ r2.conn = "mtc-01") ∧
    (crow1.updated_at ≤ select_max_conn_updated_at [crow1]) ∧
    ((svcLookup (sync_conns_initial supEmpty [crow1] 9).services "mtc-01").isSome = true ↔
      ((svcLookup supEmpty.services "mtc-01").isSome = true ∨
       ∃ r, r ∈ select_conns_enabled [crow1] ∧ r.conn = "mtc-01" ∧
         (PROTOCOL_MODULES.lookup r.protocol).isSome = true)) :=
  ⟨c8_conn_store_contract.1 [crow1] crow1,
   c8_conn_store_contract.2.2.1 [crow1] "mtc-01" crow1 (by decide),
   c8_conn_store_contract.2.2.2.1 [crow1] "mtc-01" crow1 (by simp) (by decide),
   c8_conn_store_contract.2.2.2.2.1 [crow1] crow1 (by simp),
   c8_conn_store_contract.2.2.2.2.2 supEmpty [crow1] 9 "mtc-01"⟩

/-- core.py _MAX_RESTART_COUNT (line 39). -/
def MAX_RESTART_COUNT : Nat := 5

/-- core.py _RESTART_COUNT_RESET_S (line 40). -/
def RESTART_COUNT_RESET_S : Int := 300

/-- The per-service body of SupervisorApp._healthcheck (core.py 556-581):
skip services that are not enabled and active; skip live services; for a
dead one, first reset the restart counter if more than the quiet window has
passed since the last restart, then either give up (count at the cap: log
ERROR, clear active, no start) or try a restart, bumping the counter only on
start success and clearing active on start failure.  The liveness probe and
the start result are oracle inputs; now is the monotonic clock. -/
def healthcheck_service (now : Int) (alive startOk : Bool)
    (s : ServiceState) : ServiceState × List SvAction :=
  if s.enabled && s.active then
    if alive then (s, [])
    else
      let s2 := if now - s.last_restart_ts > RESTART_COUNT_RESET_S then
          { s with restart_count := 0 } else s
      if s2.restart_count ≥ MAX_RESTART_COUNT then
        ({ s2 with active := false }, [SvAction.logError s2.app_id])
      else if startOk then
        ({ s2 with restart_count := s2.restart_count + 1, last_restart_ts := now },
         [SvAction.logWarn s2.app_id,
          SvAction.start (service_name s2.app_id s2.category)])
      else
        ({ s2 with active := false },
         [SvAction.logWarn s2.app_id,
          SvAction.start (service_name s2.app_id s2.category)])
  else (s, [])

/-- A sequence of healthcheck runs over one service record; each entry
carries the clock reading, the liveness probe result and the start result. -/
def healthcheck_run (s : ServiceState) :
    List (Int × Bool × Bool) → ServiceState
  | [] => s
  | (now, alive, ok) :: rest =>
      healthcheck_run (healthcheck_service now alive ok s).1 rest

/-- One healthcheck pass never pushes the restart counter past the cap. -/
theorem healthcheck_service_count_le (now : Int) (alive startOk : Bool)
    (s : ServiceState) (h : s.restart_count ≤ MAX_RESTART_COUNT) :
    (healthcheck_service now alive startOk s).1.restart_count ≤
      MAX_RESTART_COUNT := by
  unfold healthcheck_service
  unfold MAX_RESTART_COUNT at h ⊢
  dsimp only
  repeat' split
  all_goals dsimp only
  all_goals omega

/-- C5: restart throttling.  Starting at or below the cap, restart_count
never exceeds 5 over any sequence of healthcheck runs (even stronger than
the claim: the quiet-interval reset can only lower the counter, so no
exemption is ever needed); and a dead service found with restart_count at
the cap and no elapsed quiet interval gets exactly an ERROR log and
active = false, with no start invocation. -/
theorem c5_restart_throttle :
    (∀ (s : ServiceState) (checks : List (Int × Bool × Bool)),
       s.restart_count ≤ MAX_RESTART_COUNT →
       (healthcheck_run s checks).restart_count ≤ MAX_RESTART_COUNT) ∧
    (∀ (now : Int) (startOk : Bool) (s : ServiceState),
       s.enabled = true → s.active = true →
       MAX_RESTART_COUNT ≤ s.restart_count →
       now - s.last_restart_ts ≤ RESTART_COUNT_RESET_S →
       healthcheck_service now false startOk s =
         ({ s with active := false }, [SvAction.logError s.app_id])) := by
  constructor
  · intro s checks
    induction checks generalizing s with
    | nil => intro h; exact h
    | cons c rest ih =>
      intro h
      obtain ⟨now, alive, ok⟩ := c
      exact ih _ (healthcheck_service_count_le now alive ok s h)
  · intro now startOk s he ha hc hq
    unfold healthcheck_service
    rw [he, ha]
    dsimp only
    rw [if_neg (by omega : ¬now - s.last_restart_ts > RESTART_COUNT_RESET_S)]
    rw [if_pos hc]
    simp [he]

/-- A fresh service record, restart_count 0, used as the C5 witness start. -/
def svcFresh : ServiceState :=
  { app_id := "mtc-01", category := "interface",
    module := "nodi_edge_intf.modbus_tcp_client", enabled := true,
    conn_id := some "mtc-01", active := true }

/-- svcFresh after five counted restarts. -/
def svcWorn : ServiceState := { svcFresh with restart_count := 5, last_restart_ts := 50 }

/-- Witness for c5_restart_throttle: six dead probes inside the quiet window
leave the counter at the cap, and the worn-out record gets the ERROR / give
up treatment. -/
theorem c5_restart_throttle_witness :
    ((healthcheck_run svcFresh
        [(10, false, true), (20, false, true), (30, false, true),
         (40, false, true), (50, false, true), (60, false, true)]).restart_count ≤
      MAX_RESTART_COUNT) ∧
    (healthcheck_service 60 false true svcWorn =
      ({ svcWorn with active := false }, [SvAction.logError svcWorn.app_id])) :=
  ⟨c5_restart_throttle.1 svcFresh
      [(10, false, true), (20, false, true), (30, false, true),
       (40, false, true), (50, false, true), (60, false, true)] (by decide),
   c5_restart_throttle.2 60 true svcWorn (by decide) (by decide) (by decide)
     (by decide)⟩

/-- SupervisorApp._on_conn_removed (core.py 423-443): an empty id is
dropped; an id with no service-map entry logs a warning and returns; on a
hit the handler stops the service (category hardcoded to interface),
removes the interface unit file, daemon-reloads, deletes the registry row,
and drops the map entry. -/
def on_conn_removed (st : SupState) (connId : String) : SupState :=
  if connId == "" then st
  else
    match svcLookup st.services connId with
    | none => { st with acts := st.acts ++ [SvAction.logWarn connId] }
    | some _ =>
      let st1 := deactivate_service st connId "interface"
      let st2 := remove_service_unit st1 connId "interface"
      let st3 := daemon_reload st2
      let st4 := { st3 with db := delete_app st3.db connId }
      { st4 with services := svcDrop st4.services connId }

/-- find? by key never fires on a list filtered to exclude that key. -/
theorem find?_fst_filter_ne {α : Type} (l : List (String × α)) (x : String) :
    (l.filter (fun p => p.1 != x)).find? (fun p => p.1 == x) = none := by
  rw [List.find?_eq_none]
  intro p hp
  have hkey := (List.mem_filter.mp hp).2
  simp at hkey
  simp [hkey]

/-- A dropped key reads back as absent. -/
theorem svcLookup_svcDrop (svcs : List (String × ServiceState)) (x : String) :
    svcLookup (svcDrop svcs x) x = none := by
  unfold svcLookup svcDrop
  rw [find?_fst_filter_ne]
  rfl

/-- A deleted registry row reads back as absent. -/
theorem select_app_delete (db : List AppRow) (x : String) :
    select_app (delete_app db x) x = none := by
  unfold select_app delete_app
  rw [List.find?_eq_none]
  intro r hr
  have hkey := (List.mem_filter.mp hr).2
  simp at hkey
  simp [hkey]

/-- Stopping a service changes only the action trace. -/
theorem deactivate_service_parts (st : SupState) (a c : String) :
    (deactivate_service st a c).unitFiles = st.unitFiles ∧
    (deactivate_service st a c).db = st.db ∧
    (deactivate_service st a c).tokenCache = st.tokenCache ∧
    (deactivate_service st a c).hasLicenseMgr = st.hasLicenseMgr := by
  unfold deactivate_service stop_service
  repeat' split
  all_goals exact ⟨rfl, rfl, rfl, rfl⟩

/-- A registry row for connection x1, used in the C6 scenarios. -/
def c6row : AppRow :=
  { app_id := "x1", category := "interface",
    module := "nodi_edge_intf.modbus_tcp_client", enabled := true,
    config := "\x7b\x7d", conn_id := some "x1", license_token := none,
    license_expires_at := none, updated_at := 0 }

/-- Service record for x1 with the active flag cleared. -/
def c6svcInactive : ServiceState :=
  { app_id := "x1", category := "interface",
    module := "nodi_edge_intf.modbus_tcp_client", enabled := true,
    conn_id := some "x1", active := false }

/-- Service record for x1 registered under the addon category. -/
def c6svcAddon : ServiceState :=
  { app_id := "x1", category := "addon",
    module := "nodi_edge_addon.virtual_plc", enabled := true, active := false }

/-- Active interface service record for x1. -/
def c6svcActive : ServiceState := { c6svcInactive with active := true }

/-- State with a unit file and registry row for x1 but no service-map
entry. -/
def c6missState : SupState :=
  { db := [c6row], services := [],
    unitFiles := [unit_file "x1" "interface"] }

/-- State mapping x1 to a non-active interface service. -/
def c6inactiveState : SupState :=
  { db := [c6row], services := [("x1", c6svcInactive)],
    unitFiles := [unit_file "x1" "interface"] }

/-- State mapping x1 to an addon-category service whose unit file is the
addon one. -/
def c6addonState : SupState :=
  { db := [c6row], services := [("x1", c6svcAddon)],
    unitFiles := [unit_file "x1" "addon"] }

/-- State mapping x1 to an active interface service. -/
def c6activeState : SupState :=
  { db := [c6row], services := [("x1", c6svcActive)],
    unitFiles := [unit_file "x1" "interface"] }

/-- C6 counterexample: (1) when x1 has no service-map entry the handler
returns after a warning, leaving the unit file on disk and the registry row
in place, so the removal postcondition fails; (2) when the mapped service is
not active the handler issues no stop command (the only action is the
daemon-reload); (3) when the mapped service is an addon-category one, the
handler removes only the interface-named unit, so the addon unit file for x1
survives. -/
theorem c6_counterexample :
    ((on_conn_removed c6missState "x1").unitFiles =
        [unit_file "x1" "interface"] ∧
     select_app (on_conn_removed c6missState "x1").db "x1" = some c6row) ∧
    ((on_conn_removed c6inactiveState "x1").acts = [SvAction.daemonReload]) ∧
    (unit_file "x1" "addon" ∈ (on_conn_removed c6addonState "x1").unitFiles) := by
  decide

/-- C6 (amended): provided X is non-empty and has a service-map entry, the
handler removes the interface unit file for X from disk, deletes the
registry row, drops the map entry, and its external actions are exactly a
stop of the interface service (only when the mapped record was active)
followed by one daemon-reload.  With no map entry the handler only logs a
warning and removes nothing. -/
theorem c6_conn_removed_hit :
    ∀ (st : SupState) (x : String) (s : ServiceState),
      (x == "") = false →
      svcLookup st.services x = some s →
      unit_file x "interface" ∉ (on_conn_removed st x).unitFiles ∧
      (on_conn_removed st x).unitFiles =
        st.unitFiles.filter (fun g => g != unit_file x "interface") ∧
      select_app (on_conn_removed st x).db x = none ∧
      svcLookup (on_conn_removed st x).services x = none ∧
      (on_conn_removed st x).acts =
        st.acts ++ (if s.active then
          [SvAction.stop (service_name x "interface"), SvAction.daemonReload]
          else [SvAction.daemonReload]) := by
  intro st x s hx hlook
  have hred : on_conn_removed st x =
      (let st1 := deactivate_service st x "interface"
       let st2 := remove_service_unit st1 x "interface"
       let st3 := daemon_reload st2
       let st4 := { st3 with db := delete_app st3.db x }
       { st4 with services := svcDrop st4.services x }) := by
    unfold on_conn_removed
    rw [hx]
    simp only [Bool.false_eq_true, if_false, hlook]
  rw [hred]
  by_cases hact : s.active
  · have hds : deactivate_service st x "interface" =
        { st with
          acts := st.acts ++ [SvAction.stop (service_name x "interface")],
          services := svcSet st.services x { s with active := false } } := by
      unfold deactivate_service stop_service
      rw [hlook]
      dsimp only
      rw [if_pos hact]
    rw [hds]
    dsimp only [remove_service_unit, daemon_reload]
    refine ⟨?_, rfl, select_app_delete _ _, svcLookup_svcDrop _ _, ?_⟩
    · simp
    · rw [if_pos hact]
      simp
  · have hds : deactivate_service st x "interface" = st := by
      unfold deactivate_service
      rw [hlook]
      dsimp only
      rw [if_neg hact]
    rw [hds]
    dsimp only [remove_service_unit, daemon_reload]
    refine ⟨?_, rfl, select_app_delete _ _, svcLookup_svcDrop _ _, ?_⟩
    · simp
    · rw [if_neg hact]

/-- Witness for c6_conn_removed_hit at the concrete active-service state. -/
theorem c6_conn_removed_hit_witness :
    unit_file "x1" "interface" ∉ (on_conn_removed c6activeState "x1").unitFiles ∧
    (on_conn_removed c6activeState "x1").unitFiles =
      c6activeState.unitFiles.filter (fun g => g != unit_file "x1" "interface") ∧
    select_app (on_conn_removed c6activeState "x1").db "x1" = none ∧
    svcLookup (on_conn_removed c6activeState "x1").services "x1" = none ∧
    (on_conn_removed c6activeState "x1").acts =
      c6activeState.acts ++ (if c6svcActive.active then
        [SvAction.stop (service_name "x1" "interface"), SvAction.daemonReload]
        else [SvAction.daemonReload]) :=
  c6_conn_removed_hit c6activeState "x1" c6svcActive (by decide) (by decide)

/-- Result payload of addon activation / deactivation ({ok, error?, ...}). -/
structure ActResult where
  ok : Bool
  errMsg : Option String := none
  expires_at : Option Nat := none
  deriving DecidableEq, Repr

/-- SupervisorApp.deactivate_addon (core.py 492-512): stop the addon service
if active, remove the addon unit file, daemon-reload, null the license
columns and disable the registry row, purge the disk token cache (when the
license manager exists), clear the in-memory flags, publish the
addon_deactivated event, and unconditionally report ok. -/
def deactivate_addon (st : SupState) (appId : String) (now : Nat) :
    SupState × ActResult :=
  let st1 := deactivate_service st appId "addon"
  let st2 := remove_service_unit st1 appId "addon"
  let st3 := daemon_reload st2
  let st4 := { st3 with db := update_app_license st3.db appId none none false now }
  let st5 := if st4.hasLicenseMgr then
      { st4 with tokenCache := st4.tokenCache.filter (fun p => p.1 != appId) }
    else st4
  let st6 := match svcLookup st5.services appId with
    | some s =>
      { st5 with services := svcSet st5.services appId { s with enabled := false, active := false } }
    | none => st5
  let st7 := publish_event st6 "addon_deactivated" appId
  (st7, { ok := true })

/-- Projections of deactivate_addon: the registry row is disabled with the
license columns nulled, the addon unit file is filtered out, the token cache
entry is purged when the license manager exists, the license-manager flag
survives, and the payload is always ok. -/
theorem deactivate_addon_parts (st : SupState) (appId : String) (now : Nat) :
    (deactivate_addon st appId now).1.db =
      update_app_license st.db appId none none false now ∧
    (deactivate_addon st appId now).1.unitFiles =
      st.unitFiles.filter (fun g => g != unit_file appId "addon") ∧
    (deactivate_addon st appId now).1.tokenCache =
      (if st.hasLicenseMgr then
        st.tokenCache.filter (fun p => p.1 != appId) else st.tokenCache) ∧
    (deactivate_addon st appId now).1.hasLicenseMgr = st.hasLicenseMgr ∧
    (deactivate_addon st appId now).2.ok = true := by
  obtain ⟨h1, h2, h3, h4⟩ := deactivate_service_parts st appId "addon"
  unfold deactivate_addon publish_event daemon_reload remove_service_unit
  dsimp only
  rw [h1, h2, h3, h4]
  split
  all_goals split
  all_goals exact ⟨rfl, rfl, rfl, rfl, rfl⟩

/-- C10: deactivate_addon has no failure branch: for every app-id string,
including one with no registry row, no service-map entry and no unit file,
it reports ok = true; afterwards no addon unit file for the id remains on
disk and (the license manager being initialised) no cached token for the id
remains either. -/
theorem c10_deactivate_total :
    ∀ (st : SupState) (appId : String) (now : Nat),
      st.hasLicenseMgr = true →
      (deactivate_addon st appId now).2.ok = true ∧
      unit_file appId "addon" ∉ (deactivate_addon st appId now).1.unitFiles ∧
      (deactivate_addon st appId now).1.tokenCache.find?
        (fun p => p.1 == appId) = none := by
  intro st appId now hmgr
  obtain ⟨hdb, hfs, htc, hflag, hok⟩ := deactivate_addon_parts st appId now
  refine ⟨hok, ?_, ?_⟩
  · rw [hfs]
    simp
  · rw [htc, if_pos hmgr]
    exact find?_fst_filter_ne _ _

/-- Concrete supervisor state for the C10 witness: no registry row and no
service-map entry for vplc, but a stale unit file and cached token. -/
def c10State : SupState :=
  { db := [], services := [], unitFiles := [unit_file "vplc" "addon"],
    tokenCache := [("vplc", "tok")], hasLicenseMgr := true }

/-- Witness for c10_deactivate_total on c10State. -/
theorem c10_deactivate_total_witness :
    (deactivate_addon c10State "vplc" 3).2.ok = true ∧
    unit_file "vplc" "addon" ∉ (deactivate_addon c10State "vplc" 3).1.unitFiles ∧
    (deactivate_addon c10State "vplc" 3).1.tokenCache.find?
      (fun p => p.1 == "vplc") = none :=
  c10_deactivate_total c10State "vplc" 3 rfl

/-- SupervisorApp.activate_addon (core.py 450-490).  Token cryptography is
out of scope (spec section 1): the black-box validate function returns the
claims of a verified, non-expired token or nothing.  Fails without a license
manager, on an unverifiable token, on an app-id mismatch, and on an unknown
addon; otherwise caches the token, writes token / expiry / enabled into the
registry row, maps the service, writes the unit file, daemon-reloads, starts
the service (active on start success), and publishes addon_activated. -/
def activate_addon (st : SupState) (appId token : String)
    (validate : String → Option LicClaims) (startOk : Bool) (now : Nat) :
    SupState × ActResult :=
  if st.hasLicenseMgr then
    match validate token with
    | none => (st, { ok := false, errMsg := some "invalid or expired token" })
    | some claims =>
      if claims.app_id != appId then
        (st, { ok := false, errMsg := some "token app mismatch" })
      else
        match ADDON_MODULES.lookup appId with
        | none => (st, { ok := false, errMsg := some "unknown addon" })
        | some m =>
          let st1 := { st with tokenCache := (appId, token) :: st.tokenCache.filter (fun p => p.1 != appId) }
          let st2 := { st1 with db := update_app_license st1.db appId (some token) (some claims.exp) true now }
          let s : ServiceState := { app_id := appId, category := "addon", module := m, enabled := true }
          let st3 := { st2 with services := svcSet st2.services appId s }
          let st4 := create_service_unit st3 s
          let st5 := daemon_reload st4
          let st6 := start_service st5 appId "addon"
          let st7 := if startOk then { st6 with services := svcSet st6.services appId { s with active := true } } else st6
          let st8 := publish_event st7 "addon_activated" appId
          (st8, { ok := true, expires_at := some claims.exp })
  else (st, { ok := false, errMsg := some "license manager unavailable" })

/-- One loop body of SupervisorApp._check_license_expiry (core.py 520-527):
skip disabled rows; skip rows with no expiry set, including a zero expiry
(Python truthiness of the integer); deactivate the rest once the expiry is
not in the future. -/
def expiry_step (now : Nat) (acc : SupState) (row : AppRow) : SupState :=
  if row.enabled then
    match row.license_expires_at with
    | some e => if e ≠ 0 ∧ e ≤ now then (deactivate_addon acc row.app_id now).1 else acc
    | none => acc
  else acc

/-- SupervisorApp._check_license_expiry (core.py 514-527): a no-op without a
license manager; otherwise snapshot the addon registry rows and run the
expiry step over them. -/
def check_license_expiry (st : SupState) (now : Nat) : SupState :=
  if st.hasLicenseMgr then
    (select_app_registry_cat st.db "addon").foldl (expiry_step now) st
  else st

/-- find? by app_id commutes with a row map that preserves app_id. -/
theorem find?_map_key (l : List AppRow) (g : AppRow → AppRow)
    (hg : ∀ r, (g r).app_id = r.app_id) (appId : String) :
    (l.map g).find? (fun r => r.app_id == appId) =
      (l.find? (fun r => r.app_id == appId)).map g := by
  induction l with
  | nil => rfl
  | cons r t ih =>
    by_cases h : (r.app_id == appId) = true
    · simp [hg r, h]
    · simp [hg r, h, ih]

/-- Fetching the updated id after update_app_license yields the updated
row. -/
theorem select_app_update_self (db : List AppRow) (appId : String)
    (tok : Option String) (e : Option Nat) (en : Bool) (now : Nat) :
    select_app (update_app_license db appId tok e en now) appId =
      (select_app db appId).map (fun r =>
        { r with license_token := tok, license_expires_at := e,
                 enabled := en, updated_at := now }) := by
  unfold select_app update_app_license
  rw [find?_map_key _ _ (fun r => by split <;> rfl) appId]
  cases hf : db.find? (fun r => r.app_id == appId) with
  | none => rfl
  | some r =>
    have hpe : r.app_id = appId := by
      have := List.find?_some hf
      simpa using this
    simp [hpe]

/-- update_app_license preserves the presence of a row for any id. -/
theorem select_app_update_isSome (db : List AppRow) (appId other : String)
    (tok : Option String) (e : Option Nat) (en : Bool) (now : Nat) :
    (select_app (update_app_license db other tok e en now) appId).isSome =
      (select_app db appId).isSome := by
  unfold select_app update_app_license
  rw [find?_map_key _ _ (fun r => by split <;> rfl) appId]
  cases db.find? (fun r => r.app_id == appId) <;> rfl

/-- Every registry row of the given app_id is disabled. -/
def allDisabled (db : List AppRow) (appId : String) : Prop :=
  ∀ r, r ∈ db → r.app_id = appId → r.enabled = false

/-- Disabling updates (enabled false) preserve allDisabled whatever id they
target. -/
theorem allDisabled_update (db : List AppRow) (appId other : String)
    (tok : Option String) (e : Option Nat) (now : Nat)
    (h : allDisabled db appId) :
    allDisabled (update_app_license db other tok e false now) appId := by
  intro r hr hid
  unfold update_app_license at hr
  obtain ⟨r0, hr0, hgr⟩ := List.mem_map.mp hr
  by_cases hmatch : (r0.app_id == other) = true
  · rw [if_pos hmatch] at hgr
    subst hgr
    rfl
  · rw [if_neg hmatch] at hgr
    subst hgr
    exact h r0 hr0 hid

/-- Disabling the id itself establishes allDisabled. -/
theorem allDisabled_update_self (db : List AppRow) (appId : String)
    (tok : Option String) (e : Option Nat) (now : Nat) :
    allDisabled (update_app_license db appId tok e false now) appId := by
  intro r hr hid
  unfold update_app_license at hr
  obtain ⟨r0, hr0, hgr⟩ := List.mem_map.mp hr
  by_cases hmatch : (r0.app_id == appId) = true
  · rw [if_pos hmatch] at hgr
    subst hgr
    rfl
  · rw [if_neg hmatch] at hgr
    subst hgr
    exact absurd (by simp [hid]) hmatch

/-- One expiry step preserves allDisabled. -/
theorem expiry_step_preserves (now : Nat) (appId : String) (acc : SupState)
    (row : AppRow) (h : allDisabled acc.db appId) :
    allDisabled (expiry_step now acc row).db appId := by
  unfold expiry_step
  split
  · split
    · split
      · rw [(deactivate_addon_parts acc row.app_id now).1]
        exact allDisabled_update acc.db appId row.app_id none none now h
      · exact h
    · exact h
  · exact h

/-- The expiry fold preserves allDisabled. -/
theorem expiry_fold_preserves (now : Nat) (appId : String) :
    ∀ (rows : List AppRow) (acc : SupState), allDisabled acc.db appId →
      allDisabled ((rows.foldl (expiry_step now) acc)).db appId := by
  intro rows
  induction rows with
  | nil => intro acc h; exact h
  | cons r t ih =>
    intro acc h
    exact ih (expiry_step now acc r) (expiry_step_preserves now appId acc r h)

/-- If the snapshot contains an enabled row of the id with a nonzero expiry
that has passed, the expiry fold leaves every row of that id disabled. -/
theorem expiry_fold_disables (now : Nat) (appId : String) (e : Nat) :
    ∀ (rows : List AppRow) (acc : SupState) (row : AppRow),
      row ∈ rows → row.app_id = appId → row.enabled = true →
      row.license_expires_at = some e → e ≠ 0 → e ≤ now →
      allDisabled ((rows.foldl (expiry_step now) acc)).db appId := by
  intro rows
  induction rows with
  | nil =>
    intro acc row hmem
    cases hmem
  | cons r t ih =>
    intro acc row hmem hid hen hexp hne hle
    rcases List.mem_cons.mp hmem with heq | hmem2
    · subst heq
      rw [List.foldl_cons]
      apply expiry_fold_preserves
      have hstep : expiry_step now acc row = (deactivate_addon acc row.app_id now).1 := by
        unfold expiry_step
        rw [if_pos hen, hexp]
        dsimp only
        rw [if_pos (⟨hne, hle⟩ : e ≠ 0 ∧ e ≤ now)]
      rw [hstep, (deactivate_addon_parts acc row.app_id now).1, hid]
      exact allDisabled_update_self acc.db appId none none now
    · rw [List.foldl_cons]
      exact ih (expiry_step now acc r) row hmem2 hid hen hexp hne hle

/-- One expiry step keeps the registry row for any id present. -/
theorem expiry_step_isSome (now : Nat) (appId : String) (acc : SupState)
    (row : AppRow) (h : (select_app acc.db appId).isSome = true) :
    (select_app (expiry_step now acc row).db appId).isSome = true := by
  unfold expiry_step
  split
  · split
    · split
      · rw [(deactivate_addon_parts acc row.app_id now).1,
          select_app_update_isSome]
        exact h
      · exact h
    · exact h
  · exact h

/-- The expiry fold keeps the registry row for any id present. -/
theorem expiry_fold_isSome (now : Nat) (appId : String) :
    ∀ (rows : List AppRow) (acc : SupState),
      (select_app acc.db appId).isSome = true →
      (select_app ((rows.foldl (expiry_step now) acc)).db appId).isSome = true := by
  intro rows
  induction rows with
  | nil => intro acc h; exact h
  | cons r t ih =>
    intro acc h
    exact ih (expiry_step now acc r) (expiry_step_isSome now appId acc r h)

/-- Successful activation: the registry table is the license update of the
original, the license manager survives, and the payload is ok with the
claimed expiry. -/
theorem activate_addon_eq (st : SupState) (appId token : String)
    (validate : String → Option LicClaims) (startOk : Bool) (now : Nat)
    (claims : LicClaims) (m : String)
    (hmgr : st.hasLicenseMgr = true)
    (hval : validate token = some claims)
    (hid : claims.app_id = appId)
    (hm : ADDON_MODULES.lookup appId = some m) :
    (activate_addon st appId token validate startOk now).1.db =
      update_app_license st.db appId (some token) (some claims.exp) true now ∧
    (activate_addon st appId token validate startOk now).1.hasLicenseMgr = true ∧
    (activate_addon st appId token validate startOk now).2.ok = true ∧
    (activate_addon st appId token validate startOk now).2.expires_at =
      some claims.exp := by
  have hne : (claims.app_id != appId) = false := by simp [hid]
  unfold activate_addon publish_event start_service daemon_reload create_service_unit
  rw [if_pos hmgr, hval]
  dsimp only
  rw [hne]
  simp only [Bool.false_eq_true, if_false]
  rw [hm]
  dsimp only
  split
  · exact ⟨rfl, hmgr, rfl, rfl⟩
  · exact ⟨rfl, hmgr, rfl, rfl⟩

/-- C4: the entitlement round trip.  Activating a pre-registered addon with
a token the black-box verifier accepts, whose claims name this app-id and a
positive expiry (jwt validation rejects already-expired tokens, so a
verified exp is positive), and whose addon module is known, marks the
registry row enabled with expires-at equal to claims.exp and reports ok;
a subsequent entitlement sweep at any epoch time at or past that expiry
leaves the registry row disabled. -/
theorem c4_entitlement_round_trip :
    ∀ (st : SupState) (appId token : String)
      (validate : String → Option LicClaims) (claims : LicClaims) (m : String)
      (startOk : Bool) (actNow swNow : Nat) (row : AppRow),
      st.hasLicenseMgr = true →
      validate token = some claims →
      claims.app_id = appId →
      ADDON_MODULES.lookup appId = some m →
      1 ≤ claims.exp →
      select_app st.db appId = some row →
      row.category = "addon" →
      claims.exp ≤ swNow →
      (activate_addon st appId token validate startOk actNow).2.ok = true ∧
      (activate_addon st appId token validate startOk actNow).2.expires_at =
        some claims.exp ∧
      (∃ r1, select_app (activate_addon st appId token validate startOk actNow).1.db appId = some r1 ∧
        r1.enabled = true ∧ r1.license_expires_at = some claims.exp) ∧
      (∃ r2, select_app (check_license_expiry (activate_addon st appId token validate startOk actNow).1 swNow).db appId = some r2 ∧
        r2.enabled = false) := by
  intro st appId token validate claims m startOk actNow swNow row
  intro hmgr hval hid hm hexp1 hrow hcat hle
  obtain ⟨hdb, hmgr1, hok, hexpat⟩ :=
    activate_addon_eq st appId token validate startOk actNow claims m hmgr hval hid hm
  obtain ⟨r1, hsel1, hen1, hlic1, hcat1, hid1⟩ :
      ∃ r1, select_app (activate_addon st appId token validate startOk actNow).1.db appId = some r1 ∧
        r1.enabled = true ∧ r1.license_expires_at = some claims.exp ∧
        r1.category = row.category ∧ r1.app_id = row.app_id := by
    rw [hdb, select_app_update_self, hrow]
    exact ⟨_, rfl, rfl, rfl, rfl, rfl⟩
  refine ⟨hok, hexpat, ⟨r1, hsel1, hen1, hlic1⟩, ?_⟩
  have hsel1f : (activate_addon st appId token validate startOk actNow).1.db.find?
      (fun r => r.app_id == appId) = some r1 := hsel1
  have hrowid : row.app_id = appId := by
    have := List.find?_some (hrow : st.db.find? (fun r => r.app_id == appId) = some row)
    simpa using this
  have hmemcat : r1 ∈ select_app_registry_cat
      (activate_addon st appId token validate startOk actNow).1.db "addon" := by
    unfold select_app_registry_cat
    rw [(List.perm_insertionSort _ _).mem_iff]
    refine List.mem_filter.mpr ⟨List.mem_of_find?_eq_some hsel1f, ?_⟩
    simp [hcat1, hcat]
  have hsweep : check_license_expiry
      (activate_addon st appId token validate startOk actNow).1 swNow =
      (select_app_registry_cat (activate_addon st appId token validate startOk actNow).1.db "addon").foldl
        (expiry_step swNow) (activate_addon st appId token validate startOk actNow).1 := by
    unfold check_license_expiry
    rw [if_pos hmgr1]
  rw [hsweep]
  have hdis := expiry_fold_disables swNow appId claims.exp
    (select_app_registry_cat (activate_addon st appId token validate startOk actNow).1.db "addon")
    (activate_addon st appId token validate startOk actNow).1 r1
    hmemcat (hid1.trans hrowid) hen1 hlic1 (by omega) hle
  have hsome := expiry_fold_isSome swNow appId
    (select_app_registry_cat (activate_addon st appId token validate startOk actNow).1.db "addon")
    (activate_addon st appId token validate startOk actNow).1
    (by rw [hsel1]; rfl)
  obtain ⟨r2, hr2⟩ := Option.isSome_iff_exists.mp hsome
  refine ⟨r2, hr2, ?_⟩
  have hr2f : ((select_app_registry_cat (activate_addon st appId token validate startOk actNow).1.db "addon").foldl
      (expiry_step swNow) (activate_addon st appId token validate startOk actNow).1).db.find?
      (fun r => r.app_id == appId) = some r2 := hr2
  have hr2id : r2.app_id = appId := by
    have := List.find?_some hr2f
    simpa using this
  exact hdis r2 (List.mem_of_find?_eq_some hr2f) hr2id

/-- Pre-registered disabled addon row for vplc, as _ensure_addon_registry
creates it. -/
def c4row : AppRow :=
  { app_id := "vplc", category := "addon",
    module := "nodi_edge_addon.virtual_plc", enabled := false,
    config := "\x7b\x7d", conn_id := none, license_token := none,
    license_expires_at := none, updated_at := 0 }

/-- Supervisor state holding only the disabled vplc addon row. -/
def c4State : SupState := { db := [c4row] }

/-- Claims of the witness token: for vplc, expiring at epoch 100. -/
def c4claims : LicClaims :=
  { app_id := "vplc", serial_number := "SN1", exp := 100 }

/-- Black-box verifier of the witness: accepts exactly the one token. -/
def c4validate : String → Option LicClaims :=
  fun t => if t == "tok-vplc" then some c4claims else none

/-- Witness for c4_entitlement_round_trip: activate vplc at epoch 50 and
sweep at epoch 100. -/
theorem c4_entitlement_round_trip_witness :
    (activate_addon c4State "vplc" "tok-vplc" c4validate true 50).2.ok = true ∧
    (activate_addon c4State "vplc" "tok-vplc" c4validate true 50).2.expires_at =
      some c4claims.exp ∧
    (∃ r1, select_app (activate_addon c4State "vplc" "tok-vplc" c4validate true 50).1.db "vplc" = some r1 ∧
      r1.enabled = true ∧ r1.license_expires_at = some c4claims.exp) ∧
    (∃ r2, select_app (check_license_expiry (activate_addon c4State "vplc" "tok-vplc" c4validate true 50).1 100).db "vplc" = some r2 ∧
      r2.enabled = false) :=
  c4_entitlement_round_trip c4State "vplc" "tok-vplc" c4validate c4claims
    "nodi_edge_addon.virtual_plc" true 50 100 c4row rfl (by decide) rfl
    (by decide) (by decide) (by decide) rfl (by decide)
